import Mathlib

/-!
Shallow embedding of the per-stream core of the Yamux multiplexer
(src/muxer/yamux/yamux_stream.cpp, class YamuxStream).

Bytes are modelled as natural numbers, byte buffers as lists of naturals.
Client callbacks are opaque identifiers (Nat); invoking a callback is
recorded as an event rather than executed, which matches the single-
threaded cooperative model of the source: within one entry-point call no
reentrancy happens, so a callback invocation is fully described by its
target and payload.

Effects of each operation are returned as a list, in the order the C++
performs them:
  - Emission: a frame pushed through the YamuxStreamFeedback port
    (writeStreamData, ackReceivedBytes, streamClosed, resetStream);
  - callNow: a client callback invoked synchronously inside the call;
  - defer: a closure handed to feedback.deferCall, to be dispatched later
    (dispatchDeferred models running such a closure);
  - deliver: bytes copied into the caller-provided output span.

The WriteQueue and ReadBuffer classes are not part of the given source
file; they are modelled from the spec (see the doc comments on their
operations).
-/

/-- Error taxonomy of the stream (YamuxError plus a passthrough
constructor for session-level error codes handed to closedByConnection). -/
inductive Err where
  | INVALID_ARGUMENT
  | STREAM_IS_READING
  | STREAM_NOT_READABLE
  | STREAM_NOT_WRITABLE
  | STREAM_WRITE_BUFFER_OVERFLOW
  | INVALID_WINDOW_SIZE
  | RECEIVE_WINDOW_OVERFLOW
  | STREAM_CLOSED_BY_HOST
  | STREAM_RESET_BY_HOST
  | STREAM_RESET_BY_PEER
  | INTERNAL_ERROR
  | CONN_ERROR (code : Nat)
  deriving DecidableEq, Repr

/-- Payload of a read callback: outcome result of size_t. -/
inductive RdRes where
  | ok (n : Nat)
  | err (e : Err)
  deriving DecidableEq, Repr

/-- Payload of a write / close / window callback: success or error. -/
inductive WrRes where
  | ok
  | err (e : Err)
  deriving DecidableEq, Repr

/-- Frames and window updates emitted through the YamuxStreamFeedback port. -/
inductive Emission where
  | writeStreamData (id : Nat) (data : List Nat) (someFlag : Bool)
  | ackReceivedBytes (id : Nat) (delta : Nat)
  | streamClosed (id : Nat)
  | resetStream (id : Nat)
  deriving DecidableEq, Repr

/-- A client callback invocation. The read target is an Option because the
source can pass the (possibly empty) stored read_cb slot to the deferred
call. -/
inductive CbEvent where
  | readCb (target : Option Nat) (res : RdRes)
  | writeCb (target : Nat) (res : WrRes)
  | closeCb (target : Nat) (res : WrRes)
  | windowCb (target : Nat) (res : WrRes)
  deriving DecidableEq, Repr

/-- Closures handed to feedback.deferCall, by the shape of their body. -/
inductive Deferred where
  | readD (target : Option Nat) (res : RdRes)
  | writeD (target : Nat) (e : Err)
  | closeCompletedD
  | adjustRejectD (target : Nat)
  deriving DecidableEq, Repr

/-- One observable effect of a stream operation, in program order. -/
inductive Eff where
  | emit (e : Emission)
  | callNow (c : CbEvent)
  | defer (d : Deferred)
  | deliver (data : List Nat)
  deriving DecidableEq, Repr

/-- Modelled from the spec: one WriteQueue item. rest holds the not yet
dequeued bytes of its payload; unacked counts bytes of this item already
dequeued to the wire but not yet acknowledged. -/
structure WQItem where
  rest : List Nat
  unacked : Nat
  someFlag : Bool
  cb : Nat
  deriving DecidableEq, Repr

/-- Modelled from the spec: a bounded FIFO of pending outbound payloads
with admission control, credit-bounded dequeue that may split the head
item, and broadcast/clear on close. -/
structure WriteQueue where
  limit : Nat
  items : List WQItem
  deriving DecidableEq, Repr

/-- Modelled from the spec: bytes enqueued and not yet acknowledged. -/
def WriteQueue.pendingBytes (q : WriteQueue) : Nat :=
  (q.items.map (fun it => it.rest.length + it.unacked)).sum

/-- Modelled from the spec: canEnqueue(n) is true iff pending + n does not
exceed the configured limit. -/
def WriteQueue.canEnqueue (q : WriteQueue) (n : Nat) : Bool :=
  q.pendingBytes + n ≤ q.limit

/-- Modelled from the spec: append an item (precondition canEnqueue held). -/
def WriteQueue.enqueue (q : WriteQueue) (data : List Nat) (someFlag : Bool)
    (cb : Nat) : WriteQueue :=
  { q with items := q.items ++ [⟨data, 0, someFlag, cb⟩] }

/-- Modelled from the spec: drop remaining items without firing callbacks. -/
def WriteQueue.clear (q : WriteQueue) : WriteQueue :=
  { q with items := [] }

/-- Modelled from the spec: helper of dequeue. Walks past fully dequeued
(awaiting-ack) items and takes an up-to-credit prefix of the first item
that still has undequeued bytes, splitting it if needed. Returns the
updated item list, the chunk and its someFlag. -/
def WriteQueue.dqGo (credit : Nat) : List WQItem → List WQItem × List Nat × Bool
  | [] => ([], [], false)
  | it :: tl =>
    if it.rest.isEmpty then
      let r := WriteQueue.dqGo credit tl
      (it :: r.1, r.2.1, r.2.2)
    else
      let t := min credit it.rest.length
      ({ it with rest := it.rest.drop t, unacked := it.unacked + t } :: tl,
       it.rest.take t, it.someFlag)

/-- Modelled from the spec: dequeue(credit) returns the next up-to-credit
contiguous chunk from the head item and the remaining credit; empty chunk
when credit is zero or nothing is queued. -/
def WriteQueue.dequeue (q : WriteQueue) (credit : Nat) :
    WriteQueue × Nat × List Nat × Bool :=
  if credit = 0 then (q, credit, [], false)
  else
    let r := WriteQueue.dqGo credit q.items
    ({ q with items := r.1 }, credit - r.2.1.length, r.2.1, r.2.2)

/-- Modelled from the spec: total bytes still queued (not yet dequeued). -/
def WriteQueue.undequeuedBytes (q : WriteQueue) : Nat :=
  (q.items.map (fun it => it.rest.length)).sum

/-- State of one YamuxStream, one field per data member of the C++ class.
The caller-provided read target span is represented by its remaining
length (external_read_buffer); callback slots hold opaque identifiers. -/
structure YamuxStream where
  stream_id : Nat
  send_window_size : Nat
  receive_window_size : Nat
  maximum_window_size : Nat
  is_readable : Bool
  is_writable : Bool
  is_reading : Bool
  reading_some : Bool
  close_reason : Option Err
  no_more_callbacks : Bool
  internal_read_buffer : List Nat
  external_read_buffer : Nat
  read_message_size : Nat
  read_cb : Option Nat
  close_cb : Option Nat
  window_cb : Option (Nat × Nat)
  write_queue : WriteQueue
  deriving DecidableEq, Repr

/-- Constructor state of YamuxStream (the constructor asserts
window_size ≤ maximum_window_size and write_queue_limit ≥ maximum). -/
def mkStream (id windowSize maxWindow qlimit : Nat) : YamuxStream where
  stream_id := id
  send_window_size := windowSize
  receive_window_size := windowSize
  maximum_window_size := maxWindow
  is_readable := true
  is_writable := true
  is_reading := false
  reading_some := false
  close_reason := none
  no_more_callbacks := false
  internal_read_buffer := []
  external_read_buffer := 0
  read_message_size := 0
  read_cb := none
  close_cb := none
  window_cb := none
  write_queue := { limit := qlimit, items := [] }

/-- isClosed: the sticky close reason is set (error_code value nonzero). -/
def YamuxStream.isClosed (s : YamuxStream) : Bool :=
  s.close_reason.isSome

/-- deferReadCallback: skip scheduling entirely when no_more_callbacks is
already set, otherwise hand a closure to feedback.deferCall. -/
def deferReadCallback (s : YamuxStream) (res : RdRes) (cb : Option Nat) : List Eff :=
  if s.no_more_callbacks then [] else [Eff.defer (Deferred.readD cb res)]

/-- deferWriteCallback: same pattern as deferReadCallback. -/
def deferWriteCallback (s : YamuxStream) (e : Err) (cb : Nat) : List Eff :=
  if s.no_more_callbacks then [] else [Eff.defer (Deferred.writeD cb e)]

/-- closeCompleted: default the reason to STREAM_CLOSED_BY_HOST if unset,
then fire the parked close_cb once (success iff the terminal reason is
STREAM_CLOSED_BY_HOST) and clear the slot. -/
def closeCompleted (s : YamuxStream) : YamuxStream × List CbEvent :=
  let reason := s.close_reason.getD Err.STREAM_CLOSED_BY_HOST
  let s1 := { s with close_reason := some reason }
  match s1.close_cb with
  | none => (s1, [])
  | some c =>
    ({ s1 with close_cb := none },
     [CbEvent.closeCb c
        (if reason = Err.STREAM_CLOSED_BY_HOST then WrRes.ok
         else WrRes.err reason)])

/-- doClose: record the sticky close reason, drop both directions, fire
the read callback (when asked and a read is in flight), complete a parked
close, then broadcast the reason to every queued write callback and clear
the queue - all synchronous invocations, guarded by no_more_callbacks. -/
def doClose (s : YamuxStream) (ec : Err) (notifyReadCallback : Bool) :
    YamuxStream × List Eff :=
  let s0 := { s with close_reason := some ec,
                     is_readable := false, is_writable := false }
  let p1 :=
    if notifyReadCallback then
      let s1 := { s0 with internal_read_buffer := [] }
      if s1.is_reading then
        let cb := s1.read_cb
        let s2 := { s1 with is_reading := false, read_cb := none }
        if s2.no_more_callbacks then (s2, ([] : List Eff))
        else (s2, [Eff.callNow (CbEvent.readCb cb (RdRes.err ec))])
      else (s1, [])
    else (s0, [])
  let p2 :=
    if p1.1.close_cb.isSome then
      let r := closeCompleted p1.1
      (r.1, r.2.map Eff.callNow)
    else (p1.1, ([] : List Eff))
  let p3 :=
    if p2.1.no_more_callbacks then (p2.1, ([] : List Eff))
    else
      let cbs := p2.1.write_queue.items.map (fun it => it.cb)
      ({ p2.1 with write_queue := p2.1.write_queue.clear },
       cbs.map (fun c => Eff.callNow (CbEvent.writeCb c (WrRes.err ec))))
  (p3.1, p1.2 ++ p2.2 ++ p3.2)

/-- drainGo: the dequeue loop of the argumentless doWrite. Each iteration
dequeues an up-to-send_window chunk and emits it as a DATA frame; stops on
an empty chunk. Fuel bounds the iteration count; doWriteLoop passes
undequeuedBytes + 1 which is an upper bound on the iterations the C++
while loop performs, since every non-final iteration dequeues at least one
byte. -/
def drainGo : Nat → WriteQueue → Nat → Nat → WriteQueue × Nat × List Eff
  | 0, q, credit, _ => (q, credit, [])
  | fuel + 1, q, credit, id =>
    let d := q.dequeue credit
    if d.2.2.1.isEmpty then (d.1, d.2.1, [])
    else
      let r := drainGo fuel d.1 d.2.1 id
      (r.1, r.2.1,
       Eff.emit (Emission.writeStreamData id d.2.2.1 d.2.2.2) :: r.2.2)

/-- doWriteLoop: the argumentless YamuxStream::doWrite. Drains the write
queue within current send credit (skipped once close_reason is set), then,
when the stream is half-closed for writes with credit left and not yet
terminally closed, emits FIN; if it is also unreadable, performs the
graceful terminal close, otherwise resets receive_window_size to the
maximum so the peer may flush its side. -/
def doWriteLoop (s : YamuxStream) : YamuxStream × List Eff :=
  let d :=
    match s.close_reason with
    | some _ => (s.write_queue, s.send_window_size, ([] : List Eff))
    | none => drainGo (s.write_queue.undequeuedBytes + 1) s.write_queue
        s.send_window_size s.stream_id
  let s1 := { s with write_queue := d.1, send_window_size := d.2.1 }
  if !s1.is_writable && s1.close_reason.isNone && s1.send_window_size != 0 then
    if !s1.is_readable then
      let r := doClose s1 Err.STREAM_CLOSED_BY_HOST false
      (r.1, d.2.2 ++ [Eff.emit (Emission.streamClosed s1.stream_id)] ++ r.2)
    else
      ({ s1 with receive_window_size := s1.maximum_window_size },
       d.2.2 ++ [Eff.emit (Emission.streamClosed s1.stream_id)])
  else (s1, d.2.2)

/-- doWrite (the four-argument dispatcher behind write and writeSome).
Admission in source order: invalid arguments, not writable, close reason,
write-queue overflow - each rejected through deferWriteCallback; otherwise
enqueue the first n bytes and run the drain loop. -/
def doWriteEntry (s : YamuxStream) (input : List Nat) (bytes : Nat)
    (cb : Nat) (someFlag : Bool) : YamuxStream × List Eff :=
  if bytes = 0 ∨ input.length = 0 ∨ input.length < bytes then
    (s, deferWriteCallback s Err.INVALID_ARGUMENT cb)
  else if !s.is_writable then
    (s, deferWriteCallback s Err.STREAM_NOT_WRITABLE cb)
  else
    match s.close_reason with
    | some r => (s, deferWriteCallback s r cb)
    | none =>
      if !s.write_queue.canEnqueue bytes then
        (s, deferWriteCallback s Err.STREAM_WRITE_BUFFER_OVERFLOW cb)
      else
        doWriteLoop
          { s with write_queue :=
              s.write_queue.enqueue (input.take bytes) someFlag cb }

/-- write: doWrite with someFlag false. -/
def write (s : YamuxStream) (input : List Nat) (bytes : Nat) (cb : Nat) :
    YamuxStream × List Eff :=
  doWriteEntry s input bytes cb false

/-- writeSome: doWrite with someFlag true. -/
def writeSome (s : YamuxStream) (input : List Nat) (bytes : Nat) (cb : Nat) :
    YamuxStream × List Eff :=
  doWriteEntry s input bytes cb true

/-- Fast-path guard of doRead: enough buffered bytes for the request, or a
readSome with a nonempty buffer. -/
def fastPathCond (s : YamuxStream) (bytes : Nat) (someFlag : Bool) : Bool :=
  decide (bytes ≤ s.internal_read_buffer.length)
    || (someFlag && s.internal_read_buffer.length != 0)

/-- doRead (the dispatcher behind read and readSome). outLen is the length
of the caller-provided span. In source order: argument check; fast path
consuming buffered bytes (window update only while still readable);
close_reason, is_reading and is_readable checks - the last one hands the
stored read_cb slot, not the supplied cb, to the deferred call and leaves
the slot moved-from (empty); otherwise park the read, moving any buffered
partial bytes into the target without advancing the target span. -/
def doRead (s : YamuxStream) (outLen bytes : Nat) (cb : Option Nat)
    (someFlag : Bool) : YamuxStream × List Eff :=
  if cb.isNone ∨ bytes = 0 ∨ outLen = 0 ∨ outLen < bytes then
    (s, deferReadCallback s (RdRes.err Err.INVALID_ARGUMENT) cb)
  else if fastPathCond s bytes someFlag then
    let consumed := min bytes s.internal_read_buffer.length
    let delivered := s.internal_read_buffer.take consumed
    let s1 := { s with internal_read_buffer :=
        s.internal_read_buffer.drop consumed }
    let ackE :=
      if s1.is_readable then
        [Eff.emit (Emission.ackReceivedBytes s1.stream_id consumed)]
      else []
    (s1, Eff.deliver delivered
      :: ackE ++ deferReadCallback s1 (RdRes.ok consumed) cb)
  else
    match s.close_reason with
    | some r => (s, deferReadCallback s (RdRes.err r) cb)
    | none =>
      if s.is_reading then
        (s, deferReadCallback s (RdRes.err Err.STREAM_IS_READING) cb)
      else if !s.is_readable then
        let slot := s.read_cb
        ({ s with read_cb := none },
         deferReadCallback s (RdRes.err Err.STREAM_NOT_READABLE) slot)
      else
        let s1 := { s with is_reading := true, read_cb := cb,
                           external_read_buffer := bytes,
                           read_message_size := bytes,
                           reading_some := someFlag }
        if s1.internal_read_buffer.length != 0 then
          let delivered := s1.internal_read_buffer.take bytes
          ({ s1 with internal_read_buffer :=
               s1.internal_read_buffer.drop bytes },
           [Eff.deliver delivered])
        else (s1, [])

/-- read: doRead with someFlag false. -/
def read (s : YamuxStream) (outLen bytes : Nat) (cb : Option Nat) :
    YamuxStream × List Eff :=
  doRead s outLen bytes cb false

/-- readSome: doRead with someFlag true. -/
def readSome (s : YamuxStream) (outLen bytes : Nat) (cb : Option Nat) :
    YamuxStream × List Eff :=
  doRead s outLen bytes cb true

/-- readCompleted: clear the read-in-flight state and fire the stored read
callback with read_message_size. -/
def readCompleted (s : YamuxStream) : YamuxStream × List Eff :=
  if s.is_reading then
    let sz := s.read_message_size
    let s1 := { s with is_reading := false, read_message_size := 0,
                       reading_some := false }
    match s1.read_cb with
    | some c =>
      ({ s1 with read_cb := none },
       [Eff.callNow (CbEvent.readCb (some c) (RdRes.ok sz))])
    | none => (s1, [])
  else (s, [])

/-- Byte-transfer phase of onDataRead (the body of the "if (sz > 0)"
block). When a read is in flight, addAndConsume moves bytes into the
caller target (internal buffer keeps any surplus), the target span is
advanced, and an exact read completes when the target is full while a
readSome completes at once with read_message_size set to the consumed
count. Without a read in flight the bytes are parked in the internal
buffer. Returns the new state, bytes_consumed, the overflow flag
(advertised window exceeded by buffered plus still-owed bytes) and the
effects. -/
def readPhase (s : YamuxStream) (bytes : List Nat) :
    YamuxStream × Nat × Bool × List Eff :=
  if bytes.length = 0 then (s, 0, false, [])
  else
    let p :=
      if s.is_reading then
        let buf := s.internal_read_buffer ++ bytes
        let consumed := min s.external_read_buffer buf.length
        let delivered := buf.take consumed
        let s1 := { s with internal_read_buffer := buf.drop consumed,
                           external_read_buffer :=
                             s.external_read_buffer - consumed }
        let completedExact := s1.external_read_buffer = 0
        let s2 :=
          if s1.reading_some then { s1 with read_message_size := consumed }
          else s1
        let completed := if s1.reading_some then true else completedExact
        if completed then
          let r := readCompleted s2
          (r.1, consumed, Eff.deliver delivered :: r.2)
        else (s2, consumed, [Eff.deliver delivered])
      else
        ({ s with internal_read_buffer := s.internal_read_buffer ++ bytes },
         0, [])
    let s3 := p.1
    (s3, p.2.1,
     decide (s3.receive_window_size
       < s3.internal_read_buffer.length + s3.external_read_buffer),
     p.2.2)

/-- Return signal of onDataRead to the connection. -/
inductive DataFromConnectionResult where
  | kKeepStream
  | kRemoveStream
  | kRemoveStreamAndSendRst
  deriving DecidableEq, Repr

/-- Decision chain of onDataRead after the byte-transfer phase: already
closed; rst; fin (with terminal close when also unwritable); overflow;
finally the window replenishment for bytes handed directly to the client. -/
def onDataReadTail (s : YamuxStream) (consumed : Nat) (overflow : Bool)
    (fin rst : Bool) : YamuxStream × DataFromConnectionResult × List Eff :=
  if s.isClosed then (s, DataFromConnectionResult.kRemoveStreamAndSendRst, [])
  else if rst then
    let r := doClose s Err.STREAM_RESET_BY_PEER false
    (r.1, DataFromConnectionResult.kRemoveStream, r.2)
  else if fin then
    let s1 := { s with is_readable := false }
    if !s1.is_writable then
      let r := doClose s1 Err.STREAM_CLOSED_BY_HOST false
      (r.1, DataFromConnectionResult.kRemoveStream, r.2)
    else (s1, DataFromConnectionResult.kKeepStream, [])
  else if overflow then
    let r := doClose s Err.RECEIVE_WINDOW_OVERFLOW false
    (r.1, DataFromConnectionResult.kRemoveStreamAndSendRst, r.2)
  else if consumed != 0 then
    ({ s with receive_window_size := s.receive_window_size + consumed },
     DataFromConnectionResult.kKeepStream,
     [Eff.emit (Emission.ackReceivedBytes s.stream_id consumed)])
  else (s, DataFromConnectionResult.kKeepStream, [])

/-- onDataRead: byte-transfer phase followed by the decision chain. -/
def onDataRead (s : YamuxStream) (bytes : List Nat) (fin rst : Bool) :
    YamuxStream × DataFromConnectionResult × List Eff :=
  let ph := readPhase s bytes
  let t := onDataReadTail ph.1 ph.2.1 ph.2.2.1 fin rst
  (t.1, t.2.1, ph.2.2.2 ++ t.2.2)

/-- close: store cb in the close_cb slot (overwriting any previous one).
On an already-closed stream, defer closeCompleted; on a still-writable
stream, drop writability and run the drain loop, which flushes and emits
FIN; on a stream already half-closed for writes, nothing more. -/
def close (s : YamuxStream) (cb : Option Nat) : YamuxStream × List Eff :=
  let s0 := { s with close_cb := cb }
  if s0.isClosed then
    if s0.close_cb.isSome then (s0, [Eff.defer Deferred.closeCompletedD])
    else (s0, [])
  else if s0.is_writable then
    doWriteLoop { s0 with is_writable := false }
  else (s0, [])

/-- reset: synchronous hard close. Drops both directions, suppresses all
callbacks, records STREAM_RESET_BY_HOST, clears queue, buffer and every
callback slot, and emits RST. -/
def reset (s : YamuxStream) : YamuxStream × List Eff :=
  ({ s with is_readable := false, is_writable := false,
            no_more_callbacks := true,
            close_reason := some Err.STREAM_RESET_BY_HOST,
            write_queue := s.write_queue.clear,
            internal_read_buffer := [],
            read_cb := none, window_cb := none, close_cb := none },
   [Eff.emit (Emission.resetStream s.stream_id)])

/-- adjustWindowSize: reject (deferred) when closed, above the maximum, or
shrinking below the current receive window; otherwise immediately emit a
window update of the difference and park (cb, new_size) in the window_cb
slot. -/
def adjustWindowSize (s : YamuxStream) (newSize : Nat) (cb : Option Nat) :
    YamuxStream × List Eff :=
  if s.close_reason.isSome ∨ s.maximum_window_size < newSize
      ∨ newSize < s.receive_window_size then
    match cb with
    | some c => (s, [Eff.defer (Deferred.adjustRejectD c)])
    | none => (s, [])
  else
    let effs := [Eff.emit (Emission.ackReceivedBytes s.stream_id
      (newSize - s.receive_window_size))]
    match cb with
    | some c => ({ s with window_cb := some (c, newSize) }, effs)
    | none => (s, effs)

/-- Body of the closure parked in the window_cb slot (source lines
177-192): on invocation, report close_reason if the stream died, success
once receive_window_size has reached new_size, otherwise keep waiting;
the slot is cleared exactly when the callback fires. The source file never
invokes this slot itself - the invocation trigger lives outside the given
file - so invoking it is modelled from the spec: the parked callback
fires when the stream dies or the window has caught up. -/
def invokeWindowCb (s : YamuxStream) : YamuxStream × List CbEvent :=
  match s.window_cb with
  | none => (s, [])
  | some (c, newSize) =>
    match s.close_reason with
    | some r => ({ s with window_cb := none },
        [CbEvent.windowCb c (WrRes.err r)])
    | none =>
      if newSize ≤ s.receive_window_size then
        ({ s with window_cb := none }, [CbEvent.windowCb c WrRes.ok])
      else (s, [])

/-- increaseSendWindow (entered through onSendWindowIncrease): add the
granted credit and resume the drain loop. -/
def increaseSendWindow (s : YamuxStream) (delta : Nat) :
    YamuxStream × List Eff :=
  doWriteLoop { s with send_window_size := s.send_window_size + delta }

/-- closedByConnection: the session died beneath the stream; shared
terminal path with read notification. -/
def closedByConnection (s : YamuxStream) (ec : Err) :
    YamuxStream × List Eff :=
  doClose s ec true

/-- Dispatch of one closure previously handed to feedback.deferCall, on
the state current at dispatch time (the weak self-reference is assumed
alive). The read and write closures check no_more_callbacks; the deferred
closeCompleted of close() and the rejection closure of adjustWindowSize
do not. -/
def dispatchDeferred (s : YamuxStream) : Deferred → YamuxStream × List CbEvent
  | Deferred.readD cb res =>
    if s.no_more_callbacks then (s, []) else (s, [CbEvent.readCb cb res])
  | Deferred.writeD cb e =>
    if s.no_more_callbacks then (s, [])
    else (s, [CbEvent.writeCb cb (WrRes.err e)])
  | Deferred.closeCompletedD => closeCompleted s
  | Deferred.adjustRejectD cb =>
    match s.close_reason with
    | none => (s, [CbEvent.windowCb cb (WrRes.err Err.INVALID_WINDOW_SIZE)])
    | some r => (s, [CbEvent.windowCb cb (WrRes.err r)])

/-- True iff the effect list invokes some callback synchronously. -/
def hasCallNow (l : List Eff) : Bool :=
  l.any fun e => match e with
    | Eff.callNow _ => true
    | _ => false

/-- True iff the effect list schedules or invokes any client callback. -/
def hasCallbackEff (l : List Eff) : Bool :=
  l.any fun e => match e with
    | Eff.callNow _ => true
    | Eff.defer _ => true
    | _ => false

/-- True iff the effect list invokes a read callback synchronously. -/
def hasReadCbEff (l : List Eff) : Bool :=
  l.any fun e => match e with
    | Eff.callNow (CbEvent.readCb _ _) => true
    | _ => false

/-! Concrete states used by counterexamples and witnesses. Each is built
by running operations from a constructor state, so it is reachable. -/

/-- A stream closed by receive-window overflow whose internal read buffer
still holds the overflowing bytes (doClose with notify_read_callback false
does not clear the buffer). -/
def sOverflowClosed : YamuxStream :=
  (onDataRead (mkStream 1 2 2 4) [1, 2, 3] false false).1

/-- A healthy stream with three buffered bytes and receive window 100. -/
def sBuffered : YamuxStream :=
  (onDataRead (mkStream 1 100 100 200) [9, 9, 9] false false).1

/-- A stream whose peer sent FIN: unreadable, still writable, not closed. -/
def sHalfClosedRead : YamuxStream :=
  (onDataRead (mkStream 1 10 10 20) [] true false).1

/-- A gracefully closed stream (peer FIN, then local close without a
callback): close_reason is STREAM_CLOSED_BY_HOST. -/
def sClosedGraceful : YamuxStream :=
  (close (onDataRead (mkStream 1 10 10 20) [] true false).1 none).1

/-- A stream after reset(): no_more_callbacks is set. -/
def sAfterReset : YamuxStream :=
  (reset (mkStream 1 10 10 20)).1

/-- A FIN-from-peer stream used for the read-on-unreadable path. -/
def sNotReadable : YamuxStream :=
  (onDataRead (mkStream 3 10 10 20) [] true false).1

/-! Helper lemmas shared by the claim theorems. -/

lemma readCompleted_close_reason (s : YamuxStream) :
    (readCompleted s).1.close_reason = s.close_reason := by
  unfold readCompleted
  dsimp only
  repeat' split
  all_goals simp_all

lemma readCompleted_is_writable (s : YamuxStream) :
    (readCompleted s).1.is_writable = s.is_writable := by
  unfold readCompleted
  dsimp only
  repeat' split
  all_goals simp_all

lemma readPhase_close_reason (s : YamuxStream) (bytes : List Nat) :
    (readPhase s bytes).1.close_reason = s.close_reason := by
  unfold readPhase
  dsimp only
  repeat' split
  all_goals simp_all [readCompleted_close_reason]

lemma readPhase_is_writable (s : YamuxStream) (bytes : List Nat) :
    (readPhase s bytes).1.is_writable = s.is_writable := by
  unfold readPhase
  dsimp only
  repeat' split
  all_goals simp_all [readCompleted_is_writable]

lemma closeCompleted_close_reason (s : YamuxStream) (r : Err)
    (h : s.close_reason = some r) :
    (closeCompleted s).1.close_reason = some r := by
  unfold closeCompleted
  dsimp only
  repeat' split
  all_goals simp_all

lemma closeCompleted_is_readable (s : YamuxStream) :
    (closeCompleted s).1.is_readable = s.is_readable := by
  unfold closeCompleted
  dsimp only
  repeat' split
  all_goals simp_all

lemma doClose_close_reason (s : YamuxStream) (ec : Err) (b : Bool) :
    (doClose s ec b).1.close_reason = some ec := by
  unfold doClose closeCompleted
  dsimp only
  repeat' split
  all_goals simp_all

lemma doClose_is_readable (s : YamuxStream) (ec : Err) (b : Bool) :
    (doClose s ec b).1.is_readable = false := by
  unfold doClose closeCompleted
  dsimp only
  repeat' split
  all_goals simp_all

lemma doClose_noReadCb (s : YamuxStream) (ec : Err) :
    hasReadCbEff (doClose s ec false).2 = false := by
  unfold doClose closeCompleted hasReadCbEff
  dsimp only
  repeat' split
  all_goals simp_all [List.any_map, Function.comp]

/-- Claim C10: on a non-closed stream, onDataRead with an empty byte span,
fin false and rst false returns kKeepStream, leaves the state unchanged
and produces no effects (no emissions, no callbacks). -/
theorem claim_C10 (s : YamuxStream) (h : s.close_reason = none) :
    onDataRead s [] false false =
      (s, DataFromConnectionResult.kKeepStream, []) := by
  simp [onDataRead, readPhase, onDataReadTail, YamuxStream.isClosed, h]

/-- Witness for C10 at a concrete constructor state. -/
theorem claim_C10_w :
    onDataRead (mkStream 1 10 10 20) [] false false =
      (mkStream 1 10 10 20, DataFromConnectionResult.kKeepStream, []) :=
  claim_C10 (mkStream 1 10 10 20) rfl

/-- Claim C8: an accepted adjustWindowSize (not closed, new_size at most
the maximum, new_size at least the current receive window) immediately
emits a window update of new_size minus receive_window_size and parks
(cb, new_size) in the window_cb slot; the parked callback, when invoked,
fires with close_reason if the stream has died, and with success once
receive_window_size has reached new_size, clearing the slot either way. -/
theorem claim_C8 (s : YamuxStream) (newSize c : Nat)
    (h1 : s.close_reason = none) (h2 : newSize ≤ s.maximum_window_size)
    (h3 : s.receive_window_size ≤ newSize) :
    adjustWindowSize s newSize (some c) =
      ({ s with window_cb := some (c, newSize) },
       [Eff.emit (Emission.ackReceivedBytes s.stream_id
          (newSize - s.receive_window_size))]) ∧
    (∀ s2 r, s2.window_cb = some (c, newSize) → s2.close_reason = some r →
       invokeWindowCb s2 =
         ({ s2 with window_cb := none }, [CbEvent.windowCb c (WrRes.err r)])) ∧
    (∀ s2, s2.window_cb = some (c, newSize) → s2.close_reason = none →
       newSize ≤ s2.receive_window_size →
       invokeWindowCb s2 =
         ({ s2 with window_cb := none }, [CbEvent.windowCb c WrRes.ok])) := by
  refine ⟨?_, ?_, ?_⟩
  · have hcond : ¬ (s.close_reason.isSome = true
        ∨ s.maximum_window_size < newSize
        ∨ newSize < s.receive_window_size) := by
      simp [h1]
      omega
    simp [adjustWindowSize, hcond]
  · intro s2 r hw hc
    simp [invokeWindowCb, hw, hc]
  · intro s2 hw hc hge
    simp [invokeWindowCb, hw, hc, hge]

/-- Witness for C8: growing the window from 5 to 8 on a fresh stream. -/
theorem claim_C8_w :
    adjustWindowSize (mkStream 1 5 10 20) 8 (some 2) =
      ({ mkStream 1 5 10 20 with window_cb := some (2, 8) },
       [Eff.emit (Emission.ackReceivedBytes 1 3)]) :=
  (claim_C8 (mkStream 1 5 10 20) 8 2 rfl (by decide) (by decide)).1

lemma tail_closed (s : YamuxStream) (c : Nat) (o fin rst : Bool)
    (h : s.isClosed = true) :
    onDataReadTail s c o fin rst =
      (s, DataFromConnectionResult.kRemoveStreamAndSendRst, []) := by
  simp [onDataReadTail, h]

lemma tail_rst (s : YamuxStream) (c : Nat) (o fin : Bool)
    (h : s.isClosed = false) :
    onDataReadTail s c o fin true =
      ((doClose s Err.STREAM_RESET_BY_PEER false).1,
       DataFromConnectionResult.kRemoveStream,
       (doClose s Err.STREAM_RESET_BY_PEER false).2) := by
  simp [onDataReadTail, h]

lemma tail_fin_unwritable (s : YamuxStream) (c : Nat) (o : Bool)
    (h : s.isClosed = false) (hw : s.is_writable = false) :
    onDataReadTail s c o true false =
      ((doClose { s with is_readable := false }
          Err.STREAM_CLOSED_BY_HOST false).1,
       DataFromConnectionResult.kRemoveStream,
       (doClose { s with is_readable := false }
          Err.STREAM_CLOSED_BY_HOST false).2) := by
  simp [onDataReadTail, h, hw]

lemma tail_fin_writable (s : YamuxStream) (c : Nat) (o : Bool)
    (h : s.isClosed = false) (hw : s.is_writable = true) :
    onDataReadTail s c o true false =
      ({ s with is_readable := false },
       DataFromConnectionResult.kKeepStream, []) := by
  simp [onDataReadTail, h, hw]

lemma tail_overflow (s : YamuxStream) (c : Nat)
    (h : s.isClosed = false) :
    onDataReadTail s c true false false =
      ((doClose s Err.RECEIVE_WINDOW_OVERFLOW false).1,
       DataFromConnectionResult.kRemoveStreamAndSendRst,
       (doClose s Err.RECEIVE_WINDOW_OVERFLOW false).2) := by
  simp [onDataReadTail, h]

lemma hasReadCbEff_append (a b : List Eff) :
    hasReadCbEff (a ++ b) = (hasReadCbEff a || hasReadCbEff b) := by
  simp [hasReadCbEff, List.any_append]

/-- Claim C5: the decision chain of onDataRead, after the byte-transfer
phase, in the given order. Already closed: kRemoveStreamAndSendRst. Else
rst: close with STREAM_RESET_BY_PEER, no read callback fires beyond the
byte-transfer phase, kRemoveStream. Else fin: the stream becomes
unreadable, with kRemoveStream and a STREAM_CLOSED_BY_HOST terminal close
when it was also unwritable and kKeepStream otherwise. Else overflow of
the advertised receive window: close with RECEIVE_WINDOW_OVERFLOW and
kRemoveStreamAndSendRst. -/
theorem claim_C5 (s : YamuxStream) (bytes : List Nat) (fin rst : Bool) :
    (s.isClosed = true →
       (onDataRead s bytes fin rst).2.1 =
         DataFromConnectionResult.kRemoveStreamAndSendRst) ∧
    (s.isClosed = false → rst = true →
       (onDataRead s bytes fin rst).2.1 =
           DataFromConnectionResult.kRemoveStream ∧
         (onDataRead s bytes fin rst).1.close_reason =
           some Err.STREAM_RESET_BY_PEER ∧
         hasReadCbEff (onDataRead s bytes fin rst).2.2 =
           hasReadCbEff (readPhase s bytes).2.2.2) ∧
    (s.isClosed = false → rst = false → fin = true →
       (onDataRead s bytes fin rst).1.is_readable = false ∧
         (s.is_writable = false →
            (onDataRead s bytes fin rst).2.1 =
                DataFromConnectionResult.kRemoveStream ∧
              (onDataRead s bytes fin rst).1.close_reason =
                some Err.STREAM_CLOSED_BY_HOST) ∧
         (s.is_writable = true →
            (onDataRead s bytes fin rst).2.1 =
              DataFromConnectionResult.kKeepStream)) ∧
    (s.isClosed = false → rst = false → fin = false →
       (readPhase s bytes).2.2.1 = true →
       (onDataRead s bytes fin rst).1.close_reason =
           some Err.RECEIVE_WINDOW_OVERFLOW ∧
         (onDataRead s bytes fin rst).2.1 =
           DataFromConnectionResult.kRemoveStreamAndSendRst) := by
  have hpc : ((readPhase s bytes).1).isClosed = s.isClosed := by
    simp [YamuxStream.isClosed, readPhase_close_reason]
  refine ⟨?_, ?_, ?_, ?_⟩
  · intro h
    simp only [onDataRead]
    rw [tail_closed _ _ _ _ _ (hpc.trans h)]
  · intro h hr
    subst hr
    simp only [onDataRead]
    rw [tail_rst _ _ _ _ (hpc.trans h)]
    refine ⟨rfl, doClose_close_reason _ _ _, ?_⟩
    rw [hasReadCbEff_append, doClose_noReadCb, Bool.or_false]
  · intro h hr hf
    subst hr; subst hf
    simp only [onDataRead]
    rcases hw : s.is_writable with _ | _
    · rw [tail_fin_unwritable _ _ _ (hpc.trans h)
        ((readPhase_is_writable s bytes).trans hw)]
      exact ⟨doClose_is_readable _ _ _,
        fun _ => ⟨rfl, doClose_close_reason _ _ _⟩,
        fun hcontra => by simp [hw] at hcontra⟩
    · rw [tail_fin_writable _ _ _ (hpc.trans h)
        ((readPhase_is_writable s bytes).trans hw)]
      exact ⟨rfl, fun hcontra => by simp [hw] at hcontra, fun _ => rfl⟩
  · intro h hr hf hov
    subst hr; subst hf
    simp only [onDataRead]
    rw [hov, tail_overflow _ _ (hpc.trans h)]
    exact ⟨doClose_close_reason _ _ _, rfl⟩

/-- Witness for C5: a RST frame on a fresh stream is the rst branch. -/
theorem claim_C5_w :
    (onDataRead (mkStream 1 10 10 20) [1] false true).2.1 =
        DataFromConnectionResult.kRemoveStream ∧
      (onDataRead (mkStream 1 10 10 20) [1] false true).1.close_reason =
        some Err.STREAM_RESET_BY_PEER :=
  ⟨((claim_C5 (mkStream 1 10 10 20) [1] false true).2.1 (by decide) rfl).1,
   ((claim_C5 (mkStream 1 10 10 20) [1] false true).2.1 (by decide) rfl).2.1⟩

lemma dequeue_empty (q : WriteQueue) (credit : Nat) (hq : q.items = []) :
    q.dequeue credit = (q, credit, [], false) := by
  obtain ⟨lim, items⟩ := q
  simp only at hq
  subst hq
  unfold WriteQueue.dequeue WriteQueue.dqGo
  rcases Nat.eq_zero_or_pos credit with hc | hc
  · simp [hc]
  · simp [Nat.pos_iff_ne_zero.mp hc]

lemma doClose_send_window (s : YamuxStream) (ec : Err) (b : Bool) :
    (doClose s ec b).1.send_window_size = s.send_window_size := by
  unfold doClose closeCompleted
  dsimp only
  repeat' split
  all_goals simp_all

/-- Counterexample to C1 as stated: on a stream closed with
RECEIVE_WINDOW_OVERFLOW whose read buffer still holds bytes, a read of 2
bytes completes with the consumed count, not with the close reason; and a
valid write completes with STREAM_NOT_WRITABLE, not with the close
reason. -/
theorem claim_C1_cex :
    sOverflowClosed.close_reason = some Err.RECEIVE_WINDOW_OVERFLOW ∧
    (doRead sOverflowClosed 5 2 (some 1) false).2 =
      [Eff.deliver [1, 2], Eff.defer (Deferred.readD (some 1) (RdRes.ok 2))] ∧
    Eff.defer (Deferred.readD (some 1)
        (RdRes.err Err.RECEIVE_WINDOW_OVERFLOW)) ∉
      (doRead sOverflowClosed 5 2 (some 1) false).2 ∧
    (doWriteEntry sOverflowClosed [7] 1 4 false).2 =
      [Eff.defer (Deferred.writeD 4 Err.STREAM_NOT_WRITABLE)] := by
  decide

/-- Claim C1 (amended): once close_reason is set, with deliverable
callbacks, a valid read or readSome whose fast path does not apply
completes via a deferred callback carrying the close reason; a read whose
fast path applies completes via a deferred callback with the consumed
count; a valid write or writeSome completes via a deferred callback
carrying STREAM_NOT_WRITABLE (is_writable being false whenever
close_reason is set). -/
theorem claim_C1 (s : YamuxStream) (r : Err) (outLen n wb c wc : Nat)
    (input : List Nat) (sf sfw : Bool)
    (hr : s.close_reason = some r) (hw : s.is_writable = false)
    (hn : s.no_more_callbacks = false) :
    (n ≠ 0 → outLen ≠ 0 → ¬ outLen < n → fastPathCond s n sf = false →
       doRead s outLen n (some c) sf =
         (s, [Eff.defer (Deferred.readD (some c) (RdRes.err r))])) ∧
    (n ≠ 0 → outLen ≠ 0 → ¬ outLen < n → fastPathCond s n sf = true →
       s.is_readable = false →
       (doRead s outLen n (some c) sf).2 =
         [Eff.deliver (s.internal_read_buffer.take
            (min n s.internal_read_buffer.length)),
          Eff.defer (Deferred.readD (some c)
            (RdRes.ok (min n s.internal_read_buffer.length)))]) ∧
    (wb ≠ 0 → input.length ≠ 0 → ¬ input.length < wb →
       doWriteEntry s input wb wc sfw =
         (s, [Eff.defer (Deferred.writeD wc Err.STREAM_NOT_WRITABLE)])) := by
  refine ⟨?_, ?_, ?_⟩
  · intro h1 h2 h3 hf
    simp [doRead, h1, h2, h3, hf, hr, deferReadCallback, hn]
  · intro h1 h2 h3 hf hrd
    simp [doRead, h1, h2, h3, hf, hrd, deferReadCallback, hn]
  · intro h1 h2 h3
    simp [doWriteEntry, h1, h2, h3, hw, deferWriteCallback, hn]

/-- Witness for C1 at the overflow-closed stream: a read of 5 (more than
buffered) carries the close reason; a write carries STREAM_NOT_WRITABLE. -/
theorem claim_C1_w :
    doRead sOverflowClosed 5 5 (some 1) false =
      (sOverflowClosed,
       [Eff.defer (Deferred.readD (some 1)
          (RdRes.err Err.RECEIVE_WINDOW_OVERFLOW))]) ∧
    doWriteEntry sOverflowClosed [7] 1 4 false =
      (sOverflowClosed,
       [Eff.defer (Deferred.writeD 4 Err.STREAM_NOT_WRITABLE)]) :=
  ⟨(claim_C1 sOverflowClosed Err.RECEIVE_WINDOW_OVERFLOW 5 5 1 1 4 [7]
      false false (by decide) (by decide) (by decide)).1
      (by decide) (by decide) (by decide) (by decide),
   (claim_C1 sOverflowClosed Err.RECEIVE_WINDOW_OVERFLOW 5 5 1 1 4 [7]
      false false (by decide) (by decide) (by decide)).2.2
      (by decide) (by decide) (by decide)⟩

/-- Counterexample to C2 as stated: on the fast path the window update is
emitted and the callback deferred with the consumed count, but
receive_window_size is left unchanged, not raised by consumed. -/
theorem claim_C2_cex :
    sBuffered.receive_window_size = 100 ∧
    (doRead sBuffered 3 3 (some 1) false).2 =
      [Eff.deliver [9, 9, 9], Eff.emit (Emission.ackReceivedBytes 1 3),
       Eff.defer (Deferred.readD (some 1) (RdRes.ok 3))] ∧
    ¬ (doRead sBuffered 3 3 (some 1) false).1.receive_window_size =
        sBuffered.receive_window_size + 3 := by
  decide

/-- Claim C2 (amended): on a valid read or readSome whose fast path
applies, min(n, buffered) bytes are consumed from the internal buffer into
the caller buffer, a window update of that size is emitted exactly when
the stream is still readable, the callback is deferred with the consumed
count, and the state changes only in the internal read buffer - in
particular receive_window_size is not raised. -/
theorem claim_C2 (s : YamuxStream) (outLen n c : Nat) (sf : Bool)
    (h1 : n ≠ 0) (h2 : outLen ≠ 0) (h3 : ¬ outLen < n)
    (hf : fastPathCond s n sf = true)
    (hn : s.no_more_callbacks = false) :
    doRead s outLen n (some c) sf =
      ({ s with internal_read_buffer :=
           s.internal_read_buffer.drop (min n s.internal_read_buffer.length) },
       Eff.deliver (s.internal_read_buffer.take
           (min n s.internal_read_buffer.length))
         :: (if s.is_readable then
               [Eff.emit (Emission.ackReceivedBytes s.stream_id
                  (min n s.internal_read_buffer.length))]
             else [])
         ++ [Eff.defer (Deferred.readD (some c)
              (RdRes.ok (min n s.internal_read_buffer.length)))]) := by
  simp [doRead, h1, h2, h3, hf, deferReadCallback, hn]

/-- Witness for C2 at the buffered stream: consuming all three bytes. -/
theorem claim_C2_w :
    doRead sBuffered 3 3 (some 1) false =
      ({ sBuffered with internal_read_buffer := [] },
       [Eff.deliver [9, 9, 9], Eff.emit (Emission.ackReceivedBytes 1 3),
        Eff.defer (Deferred.readD (some 1) (RdRes.ok 3))]) :=
  (claim_C2 sBuffered 3 3 1 false (by decide) (by decide) (by decide)
      (by decide) (by decide)).trans (by decide)

/-- Counterexample to C6 as stated: one onSendWindowIncrease of 5 on a
fresh stream with window 10 and maximum 10 pushes send_window_size to 15,
above the maximum. -/
theorem claim_C6_cex :
    ¬ ((increaseSendWindow (mkStream 1 10 10 20) 5).1.send_window_size ≤
        (increaseSendWindow (mkStream 1 10 10 20) 5).1.maximum_window_size) := by
  decide

/-- Claim C6 (amended): both windows are naturals (hence nonnegative) and
are bounded by maximum_window_size at construction, where the constructor
asserts window_size ≤ maximum_window_size; the bound is not preserved:
onSendWindowIncrease adds the full granted delta unclamped (stated here
for a drained queue, where the credit is untouched by the write loop). -/
theorem claim_C6 (id windowSize maxWindow qlimit : Nat) (s : YamuxStream)
    (d : Nat) (h : windowSize ≤ maxWindow) :
    (mkStream id windowSize maxWindow qlimit).send_window_size ≤
        (mkStream id windowSize maxWindow qlimit).maximum_window_size ∧
    (mkStream id windowSize maxWindow qlimit).receive_window_size ≤
        (mkStream id windowSize maxWindow qlimit).maximum_window_size ∧
    (s.write_queue.items = [] →
       (increaseSendWindow s d).1.send_window_size =
         s.send_window_size + d) := by
  refine ⟨h, h, ?_⟩
  intro hq
  unfold increaseSendWindow doWriteLoop
  dsimp only
  have hdq : ∀ credit : Nat,
      s.write_queue.dequeue credit = (s.write_queue, credit, [], false) :=
    fun credit => dequeue_empty s.write_queue credit hq
  have hdrain : ∀ fuel : Nat,
      drainGo fuel s.write_queue (s.send_window_size + d) s.stream_id =
        (s.write_queue, s.send_window_size + d, []) := by
    intro fuel
    cases fuel with
    | zero => rfl
    | succ m => simp [drainGo, hdq]
  repeat' split
  all_goals simp_all [doClose_send_window]

lemma drainGo_noCallbackEff (fuel : Nat) (q : WriteQueue) (credit id : Nat) :
    hasCallbackEff (drainGo fuel q credit id).2.2 = false := by
  induction fuel generalizing q credit with
  | zero => simp [drainGo, hasCallbackEff]
  | succ m ih =>
    simp only [drainGo]
    split
    · simp [hasCallbackEff]
    · simp only [hasCallbackEff, List.any_cons] at ih ⊢
      simp [ih]

lemma noCallNow_of_noCallbackEff (l : List Eff)
    (h : hasCallbackEff l = false) : hasCallNow l = false := by
  induction l with
  | nil => rfl
  | cons e t ih =>
    simp only [hasCallbackEff, List.any_cons, Bool.or_eq_false_iff] at h
    simp only [hasCallNow, List.any_cons, Bool.or_eq_false_iff]
    exact ⟨by cases e <;> simp_all, ih (by simp [hasCallbackEff, h.2])⟩

lemma doWriteLoop_writable_noCallNow (s : YamuxStream)
    (h : s.is_writable = true) :
    hasCallNow (doWriteLoop s).2 = false := by
  have hdg := noCallNow_of_noCallbackEff _
    (drainGo_noCallbackEff (s.write_queue.undequeuedBytes + 1) s.write_queue
      s.send_window_size s.stream_id)
  unfold doWriteLoop
  dsimp only
  repeat' split
  all_goals first
  | exact hdg
  | simp_all [hasCallNow]

lemma doClose_closeCb_fires (s : YamuxStream) (m : Nat)
    (h : s.close_cb = some m) :
    Eff.callNow (CbEvent.closeCb m WrRes.ok) ∈
      (doClose s Err.STREAM_CLOSED_BY_HOST false).2 := by
  unfold doClose closeCompleted
  dsimp only
  repeat' split
  all_goals simp_all

/-- Witness for C6 at a concrete constructor state and a concrete grant. -/
theorem claim_C6_w :
    (mkStream 1 10 10 20).send_window_size ≤
        (mkStream 1 10 10 20).maximum_window_size ∧
    (increaseSendWindow (mkStream 1 10 10 20) 5).1.send_window_size =
      (mkStream 1 10 10 20).send_window_size + 5 :=
  ⟨(claim_C6 1 10 10 20 (mkStream 1 10 10 20) 5 (by decide)).1,
   (claim_C6 1 10 10 20 (mkStream 1 10 10 20) 5 (by decide)).2.2 (by decide)⟩

/-- Counterexample to C3 as stated: on a stream whose peer already sent
FIN (unreadable, still writable, queue empty), close() itself emits FIN
and invokes the close callback synchronously, before returning. -/
theorem claim_C3_cex :
    (close sHalfClosedRead (some 5)).2 =
      [Eff.emit (Emission.streamClosed 1),
       Eff.callNow (CbEvent.closeCb 5 WrRes.ok)] ∧
    hasCallNow (close sHalfClosedRead (some 5)).2 = true := by
  decide

/-- Claim C3 (amended): read, readSome, write, writeSome and
adjustWindowSize never invoke a client callback synchronously - every
completion goes through the deferred-call port; close, however, invokes
the close callback synchronously when it performs the terminal FIN
transition (stream not closed, writable, unreadable, queue drained within
the available nonzero credit). -/
theorem claim_C3 (s : YamuxStream) (outLen n wc m nsz : Nat)
    (cb : Option Nat) (wcb : Option Nat) (sf sfw : Bool)
    (input : List Nat) (wb : Nat) :
    hasCallNow (doRead s outLen n cb sf).2 = false ∧
    hasCallNow (doWriteEntry s input wb wc sfw).2 = false ∧
    hasCallNow (adjustWindowSize s nsz wcb).2 = false ∧
    (s.close_reason = none → s.is_writable = true → s.is_readable = false →
       s.write_queue.items = [] → s.send_window_size ≠ 0 →
       Eff.callNow (CbEvent.closeCb m WrRes.ok) ∈ (close s (some m)).2) := by
  refine ⟨?_, ?_, ?_, ?_⟩
  · unfold doRead deferReadCallback
    try dsimp only
    repeat' split
    all_goals simp_all [hasCallNow]
  · unfold doWriteEntry deferWriteCallback
    try dsimp only
    repeat' split
    all_goals
      first
      | (apply doWriteLoop_writable_noCallNow; simp_all)
      | simp_all [hasCallNow]
  · unfold adjustWindowSize
    try dsimp only
    repeat' split
    all_goals simp_all [hasCallNow]
  · intro h1 h2 h3 h4 h5
    unfold close
    try dsimp only
    have hcl : ({ s with close_cb := some m } : YamuxStream).isClosed = false := by
      simp [YamuxStream.isClosed, h1]
    rw [if_neg (by simp [hcl]), if_pos (by simp [h2])]
    unfold doWriteLoop
    try dsimp only
    rw [h1]
    try dsimp only
    have hdrain :
        drainGo (({ s with close_cb := some m, is_writable := false }
            : YamuxStream).write_queue.undequeuedBytes + 1)
          ({ s with close_cb := some m, is_writable := false }
            : YamuxStream).write_queue
          s.send_window_size s.stream_id =
        (s.write_queue, s.send_window_size, []) := by
      simp [drainGo, dequeue_empty _ _ h4]
    rw [hdrain]
    try dsimp only
    rw [if_pos (by simp [h1, h5]), if_pos (by simp [h3])]
    simp only [List.mem_append]
    right
    exact doClose_closeCb_fires _ m rfl

/-- Witness for C3: no synchronous callback from a fresh-stream read, and
the synchronous close callback on the FIN-half-closed stream. -/
theorem claim_C3_w :
    hasCallNow (doRead (mkStream 1 10 10 20) 5 3 (some 1) false).2 = false ∧
    Eff.callNow (CbEvent.closeCb 5 WrRes.ok) ∈
      (close sHalfClosedRead (some 5)).2 :=
  ⟨(claim_C3 (mkStream 1 10 10 20) 5 3 1 5 0 (some 1) none false false [] 0).1,
   (claim_C3 sHalfClosedRead 5 3 1 5 0 (some 1) none false false [] 0).2.2.2
     (by decide) (by decide) (by decide) (by decide) (by decide)⟩

lemma doWriteLoop_writable_noCallbackEff (s : YamuxStream)
    (h : s.is_writable = true) :
    hasCallbackEff (doWriteLoop s).2 = false := by
  have hdg := drainGo_noCallbackEff (s.write_queue.undequeuedBytes + 1)
    s.write_queue s.send_window_size s.stream_id
  unfold doWriteLoop
  dsimp only
  repeat' split
  all_goals first
  | exact hdg
  | simp_all [hasCallbackEff]

/-- Counterexample to C4 as stated: two close() calls on an already-closed
stream (terminal reason STREAM_CLOSED_BY_HOST), then both deferred
completions dispatched. The complete record of callback events is a single
invocation of the second callback; the first callback, overwritten in the
close_cb slot, never fires. -/
theorem claim_C4_cex :
    (let p1 := close sClosedGraceful (some 1)
     let p2 := close p1.1 (some 2)
     let d1 := dispatchDeferred p2.1 Deferred.closeCompletedD
     let d2 := dispatchDeferred d1.1 Deferred.closeCompletedD
     (p1.2, p2.2, d1.2, d2.2)) =
      ([Eff.defer Deferred.closeCompletedD],
       [Eff.defer Deferred.closeCompletedD],
       [CbEvent.closeCb 2 WrRes.ok], []) := by
  decide

/-- Claim C4 (amended): close(cb1) then close(cb2) on an already-closed
stream each defers a closeCompleted; the second call overwrites the
close_cb slot, so dispatching the two deferred completions fires cb2
exactly once with the terminal reason (success iff it is
STREAM_CLOSED_BY_HOST) and fires cb1 never. -/
theorem claim_C4 (s : YamuxStream) (r : Err) (c1 c2 : Nat)
    (h : s.close_reason = some r) :
    (close s (some c1)).2 = [Eff.defer Deferred.closeCompletedD] ∧
    (close (close s (some c1)).1 (some c2)).2 =
      [Eff.defer Deferred.closeCompletedD] ∧
    (dispatchDeferred (close (close s (some c1)).1 (some c2)).1
        Deferred.closeCompletedD).2 =
      [CbEvent.closeCb c2
        (if r = Err.STREAM_CLOSED_BY_HOST then WrRes.ok else WrRes.err r)] ∧
    (dispatchDeferred
        (dispatchDeferred (close (close s (some c1)).1 (some c2)).1
            Deferred.closeCompletedD).1 Deferred.closeCompletedD).2 = [] := by
  simp [close, dispatchDeferred, closeCompleted, YamuxStream.isClosed, h]

/-- Witness for C4 on the gracefully closed stream. -/
theorem claim_C4_w :
    (dispatchDeferred (close (close sClosedGraceful (some 1)).1 (some 2)).1
        Deferred.closeCompletedD).2 = [CbEvent.closeCb 2 WrRes.ok] :=
  ((claim_C4 sClosedGraceful Err.STREAM_CLOSED_BY_HOST 1 2
      (by decide)).2.2.1).trans (by decide)

/-- Counterexample to C7 as stated: after reset(), a close() posted on the
reset stream schedules a deferred closeCompleted whose dispatch does fire
the close callback, with STREAM_RESET_BY_HOST - the deferred closure of
close() checks only liveness, not no_more_callbacks. -/
theorem claim_C7_cex :
    sAfterReset.no_more_callbacks = true ∧
    (close sAfterReset (some 3)).2 = [Eff.defer Deferred.closeCompletedD] ∧
    (dispatchDeferred (close sAfterReset (some 3)).1
        Deferred.closeCompletedD).2 =
      [CbEvent.closeCb 3 (WrRes.err Err.STREAM_RESET_BY_HOST)] := by
  decide

/-- Claim C7 (amended): reset() sets no_more_callbacks, and while that
flag holds, already-scheduled deferred read and write closures are
suppressed at dispatch and subsequently posted read and write operations
neither invoke nor schedule any callback; a close() posted after the
reset, however, still fires its callback with the terminal reason. -/
theorem claim_C7 (s : YamuxStream) (s0 : YamuxStream) (outLen n wb wc : Nat)
    (cb : Option Nat) (res : RdRes) (e : Err) (sf : Bool) (input : List Nat)
    (h : s.no_more_callbacks = true) :
    (reset s0).1.no_more_callbacks = true ∧
    dispatchDeferred s (Deferred.readD cb res) = (s, []) ∧
    dispatchDeferred s (Deferred.writeD wc e) = (s, []) ∧
    hasCallbackEff (doRead s outLen n cb sf).2 = false ∧
    hasCallbackEff (doWriteEntry s input wb wc sf).2 = false := by
  refine ⟨rfl, by simp [dispatchDeferred, h], by simp [dispatchDeferred, h],
    ?_, ?_⟩
  · unfold doRead deferReadCallback
    try dsimp only
    repeat' split
    all_goals simp_all [hasCallbackEff]
  · unfold doWriteEntry deferWriteCallback
    try dsimp only
    repeat' split
    all_goals
      first
      | (apply doWriteLoop_writable_noCallbackEff; simp_all)
      | simp_all [hasCallbackEff]

/-- Witness for C7 on the reset stream. -/
theorem claim_C7_w :
    dispatchDeferred sAfterReset (Deferred.readD (some 1) (RdRes.ok 4)) =
        (sAfterReset, []) ∧
    hasCallbackEff (doRead sAfterReset 5 3 (some 1) false).2 = false :=
  ⟨(claim_C7 sAfterReset sAfterReset 5 3 0 0 (some 1) (RdRes.ok 4)
      Err.INVALID_ARGUMENT false [] (by decide)).2.1,
   (claim_C7 sAfterReset sAfterReset 5 3 0 0 (some 1) (RdRes.ok 4)
      Err.INVALID_ARGUMENT false [] (by decide)).2.2.2.1⟩

/-- Claim C9: the failing input evaluated. On a FIN-half-closed stream
(close_reason absent, nothing buffered, no read in flight, not readable),
a valid read hands the stored - and empty - read_cb slot to the deferred
call carrying STREAM_NOT_READABLE; the supplied callback (id 7) never
appears in the effects, contradicting the specified behavior that the
error is reported via the supplied cb. -/
theorem claim_C9 :
    sNotReadable.close_reason = none ∧
    sNotReadable.is_readable = false ∧
    sNotReadable.read_cb = none ∧
    doRead sNotReadable 5 3 (some 7) false =
      (sNotReadable,
       [Eff.defer (Deferred.readD none (RdRes.err Err.STREAM_NOT_READABLE))]) := by
  decide
